import Mathlib

/-
Verification of the configuration module src/app.ts of the megashop
repository. The module is a TypeScript file exporting four named
constants built from string and boolean literals. We embed TypeScript
values shallowly: a value is a string, a boolean, a number, or a record
of named fields, and the module is the ordered list of its named
exports.
-/

namespace Megashop

/-- A TypeScript value as far as this module needs: primitive scalars
(string, boolean, number) and plain records of named fields. -/
inductive Value where
  | str : String → Value
  | bool : Bool → Value
  | num : Int → Value
  | record : List (String × Value) → Value

/-- True exactly on primitive scalar values. -/
def Value.isScalar : Value → Bool
  | .str _ => true
  | .bool _ => true
  | .num _ => true
  | .record _ => false

/-- True exactly on record values. -/
def Value.isRecord : Value → Bool
  | .record _ => true
  | _ => false

/-- True on records all of whose fields hold primitive scalars. -/
def Value.isScalarRecord : Value → Bool
  | .record fields => fields.all (fun f => f.2.isScalar)
  | _ => false

/-- True exactly on number values. -/
def Value.isNum : Value → Bool
  | .num _ => true
  | _ => false

/-- True exactly on boolean values. -/
def Value.isBool : Value → Bool
  | .bool _ => true
  | _ => false

/-- Field access on a value: the first field of a record with the given
name, none on scalars or missing fields. -/
def Value.getField : Value → String → Option Value
  | .record fields, n => fields.lookup n
  | _, _ => none

/-- The declared field names of a value: empty for scalars. -/
def Value.fieldNames : Value → List String
  | .record fields => fields.map Prod.fst
  | _ => []

/-- Field access specialised to string fields. -/
def Value.strField (v : Value) (n : String) : Option String :=
  match v.getField n with
  | some (.str s) => some s
  | _ => none

/-- export const SEO_CONFIG, lines 1 to 7 of src/app.ts. -/
def SEO_CONFIG : Value := .record
  [ ("description", .str "MegaShop is a robust ecommerce platform built with next.js and modern technologies. It\x27s designed for businesses who want a fast, modern, and scalable foundation for their online store."),
    ("fullName", .str "MegaShop - Your Ultimate Shopping Destination"),
    ("name", .str "MegaShop"),
    ("slogan", .str "Where shopping meets convenience.") ]

/-- export const SYSTEM_CONFIG, lines 9 to 15 of src/app.ts. -/
def SYSTEM_CONFIG : Value := .record
  [ ("redirectAfterSignIn", .str "/dashboard/uploads"),
    ("redirectAfterSignUp", .str "/dashboard/uploads"),
    ("repoName", .str "megashop"),
    ("repoOwner", .str "durgeshkryadav"),
    ("repoStars", .bool true) ]

/-- export const ADMIN_CONFIG, lines 17 to 19 of src/app.ts. -/
def ADMIN_CONFIG : Value := .record
  [ ("displayEmails", .bool false) ]

/-- export const DB_DEV_LOGGER, line 21 of src/app.ts: a bare boolean
literal, not a record. -/
def DB_DEV_LOGGER : Value := .bool false

/-- The ordered list of the module\x27s named exports, as declared in
src/app.ts. -/
def moduleExports : List (String × Value) :=
  [ ("SEO_CONFIG", SEO_CONFIG),
    ("SYSTEM_CONFIG", SYSTEM_CONFIG),
    ("ADMIN_CONFIG", ADMIN_CONFIG),
    ("DB_DEV_LOGGER", DB_DEV_LOGGER) ]

/-- The names of the module\x27s exports. -/
def exportNames : List String := moduleExports.map Prod.fst

/-- Reading an export by name from the evaluated module. -/
def readExport (n : String) : Option Value := moduleExports.lookup n

/-- Evaluating the module. The source contains no statement that can
throw, parse, perform I/O or validate, so evaluation is the plain
construction of the export list. -/
def evalModule : Except String (List (String × Value)) := .ok moduleExports

/-- The state of the module after initialization: the export list. The
source declares only constants and offers no mutating operation. -/
structure ModuleState where
  exports : List (String × Value)

/-- The module state produced by initialization. -/
def initState : ModuleState := ⟨moduleExports⟩

/-- The one operation the module offers: reading an export by name.
It returns the value and the (unchanged) state. -/
def readOp (s : ModuleState) (n : String) : Option Value × ModuleState :=
  (s.exports.lookup n, s)

/-- Running a sequence of reads against the module, collecting the
values read and threading the state. -/
def runReads (s : ModuleState) : List String → List (Option Value) × ModuleState
  | [] => ([], s)
  | n :: rest =>
      let r := readOp s n
      let rs := runReads r.2 rest
      (r.1 :: rs.1, rs.2)

theorem runReads_spec (ops : List String) (s : ModuleState) :
    runReads s ops = (ops.map (fun n => s.exports.lookup n), s) := by
  induction ops generalizing s with
  | nil => rfl
  | cons n rest ih => simp [runReads, readOp, ih]

/-- C1: the export SYSTEM_CONFIG has a field redirectAfterSignIn whose
value is exactly the string "/dashboard/uploads". -/
theorem c1_redirectAfterSignIn :
    SYSTEM_CONFIG.getField "redirectAfterSignIn" =
      some (Value.str "/dashboard/uploads") := rfl

/-- C2: the export DB_DEV_LOGGER is exactly the boolean false. -/
theorem c2_db_dev_logger :
    DB_DEV_LOGGER = Value.bool false ∧ readExport "DB_DEV_LOGGER" = some (Value.bool false) :=
  ⟨rfl, rfl⟩

/-- C3: the export ADMIN_CONFIG has a field displayEmails whose value
is exactly the boolean false. -/
theorem c3_displayEmails :
    ADMIN_CONFIG.getField "displayEmails" = some (Value.bool false) := rfl

/-- C4: SEO_CONFIG carries the branding strings exactly as written in
the source: name, slogan, fullName and description. -/
theorem c4_branding_strings :
    SEO_CONFIG.getField "name" = some (Value.str "MegaShop") ∧
    SEO_CONFIG.getField "slogan" = some (Value.str "Where shopping meets convenience.") ∧
    SEO_CONFIG.getField "fullName" =
      some (Value.str "MegaShop - Your Ultimate Shopping Destination") ∧
    SEO_CONFIG.getField "description" =
      some (Value.str "MegaShop is a robust ecommerce platform built with next.js and modern technologies. It\x27s designed for businesses who want a fast, modern, and scalable foundation for their online store.") :=
  ⟨rfl, rfl, rfl, rfl⟩

/-- C5 counterexample: it is false that every one of the four exports
is a record of primitive scalar fields: DB_DEV_LOGGER is a bare
boolean, not a record. -/
theorem c5_counterexample :
    ¬ (moduleExports.length = 4 ∧
       moduleExports.all (fun e => e.2.isScalarRecord) = true) := by
  intro h
  exact absurd h.2 (by decide)

/-- C5 amended: the module has exactly four named exports; three of
them (SEO_CONFIG, SYSTEM_CONFIG, ADMIN_CONFIG) are fixed-shape records
whose fields are all primitive scalars, and the fourth, DB_DEV_LOGGER,
is itself a primitive boolean scalar, not a record. -/
theorem c5_amended :
    moduleExports.length = 4 ∧
    exportNames = ["SEO_CONFIG", "SYSTEM_CONFIG", "ADMIN_CONFIG", "DB_DEV_LOGGER"] ∧
    SEO_CONFIG.isScalarRecord = true ∧
    SYSTEM_CONFIG.isScalarRecord = true ∧
    ADMIN_CONFIG.isScalarRecord = true ∧
    DB_DEV_LOGGER.isBool = true ∧
    DB_DEV_LOGGER.isRecord = false := by
  refine ⟨rfl, by decide, rfl, rfl, rfl, rfl, rfl⟩

/-- C6: no operation can fail: evaluating the module succeeds, every
declared export can be read, and every declared field of every export
can be read; there is no parsing, I/O or validation anywhere. -/
theorem c6_no_failure (n : String) (h : n ∈ exportNames) :
    evalModule = Except.ok moduleExports ∧
    ∃ v, readExport n = some v ∧
      ∀ f ∈ v.fieldNames, (v.getField f).isSome = true := by
  refine ⟨rfl, ?_⟩
  simp only [exportNames, moduleExports, List.map, List.mem_cons,
    List.not_mem_nil, or_false] at h
  rcases h with h | h | h | h <;> subst h <;> exact ⟨_, rfl, by decide⟩

/-- Witness for C6 at the concrete export name SYSTEM_CONFIG. -/
theorem c6_no_failure_witness :
    "SYSTEM_CONFIG" ∈ exportNames ∧
    (evalModule = Except.ok moduleExports ∧
     ∃ v, readExport "SYSTEM_CONFIG" = some v ∧
       ∀ f ∈ v.fieldNames, (v.getField f).isSome = true) :=
  ⟨by decide, c6_no_failure "SYSTEM_CONFIG" (by decide)⟩

/-- C7: the exports never mutate: reading a name after any sequence of
prior reads yields the same value as reading it after any other
sequence, and the module state stays the initial state throughout. -/
theorem c7_reads_immutable (ops₁ ops₂ : List String) (n : String) :
    (readOp (runReads initState ops₁).2 n).1 =
      (readOp (runReads initState ops₂).2 n).1 ∧
    (runReads initState ops₁).2 = initState := by
  simp [runReads_spec]

/-- C8: the two post-authentication redirect paths coincide, both being
the string "/dashboard/uploads". -/
theorem c8_redirects_coincide :
    SYSTEM_CONFIG.getField "redirectAfterSignIn" =
      SYSTEM_CONFIG.getField "redirectAfterSignUp" ∧
    SYSTEM_CONFIG.getField "redirectAfterSignIn" =
      some (Value.str "/dashboard/uploads") :=
  ⟨rfl, rfl⟩

/-- C9: SYSTEM_CONFIG.repoStars is the boolean true, not a number. -/
theorem c9_repoStars_is_bool :
    SYSTEM_CONFIG.getField "repoStars" = some (Value.bool true) ∧
    (SYSTEM_CONFIG.getField "repoStars").map Value.isBool = some true ∧
    (SYSTEM_CONFIG.getField "repoStars").map Value.isNum = some false :=
  ⟨rfl, rfl, rfl⟩

/-- C10: SEO_CONFIG.fullName extends SEO_CONFIG.name: fullName is name
followed by the suffix " - Your Ultimate Shopping Destination", and in
particular name is a prefix of fullName. -/
theorem c10_fullName_extends_name :
    ∃ n fn, SEO_CONFIG.strField "name" = some n ∧
      SEO_CONFIG.strField "fullName" = some fn ∧
      fn = n ++ " - Your Ultimate Shopping Destination" ∧
      n.data.isPrefixOf fn.data = true :=
  ⟨"MegaShop", "MegaShop - Your Ultimate Shopping Destination",
    rfl, rfl, by decide, by decide⟩

end Megashop
